import Mathlib

/-!
Verification of the body simulation step of the Python-OrbitLab curriculum.

The first part embeds the component-based `Settings` dataclass and `Body`
class of the physics style guide (fields `x`, `y`, `v_x`, `v_y`, `a_x`,
`a_y`, `mass`, `settings`, `size`; methods `__init__` and `update`).
Python floats are modelled as exact rationals, so the algebraic identities
of the integration step hold exactly.

The second part embeds the vector-based gravitational code of the rebound
transition guide (`force_vec_due_to` and the Euler `update`), with pygame
`Vector2` modelled over the reals (its `normalize` needs a square root).
Operations that raise in Python (float division by zero, normalising a
zero vector) return `Option.none`.
-/

namespace OrbitLab

/-- The `Settings` dataclass of the style guide.  `d_t` is the attribute
stored by `__post_init__`. -/
structure Settings where
  SCREEN_WIDTH : ℤ
  SCREEN_HEIGHT : ℤ
  OBJECT_SIZE : ℤ
  OBJECT_COLOR : ℤ × ℤ × ℤ
  GRAVITY : ℚ
  MASS : ℚ
  BACKGROUND_COLOR : ℤ × ℤ × ℤ
  FPS : ℤ
  TIMESCALE : ℤ
  d_t : ℚ

/-- Constructing a `Settings`: `__post_init__` computes
`self.d_t = self.TIMESCALE / self.FPS`. -/
def Settings.post_init (SCREEN_WIDTH SCREEN_HEIGHT OBJECT_SIZE : ℤ)
    (OBJECT_COLOR : ℤ × ℤ × ℤ) (GRAVITY MASS : ℚ)
    (BACKGROUND_COLOR : ℤ × ℤ × ℤ) (FPS TIMESCALE : ℤ) : Settings :=
  ⟨SCREEN_WIDTH, SCREEN_HEIGHT, OBJECT_SIZE, OBJECT_COLOR, GRAVITY, MASS,
   BACKGROUND_COLOR, FPS, TIMESCALE, (TIMESCALE : ℚ) / (FPS : ℚ)⟩

/-- `Settings()` with the class defaults of the style guide. -/
def defaultSettings : Settings :=
  Settings.post_init 600 600 50 (255, 0, 0) 60 2 (0, 0, 0) 60 1

/-- The component-based `Body` class of the style guide. -/
structure Body where
  x : ℚ
  y : ℚ
  v_x : ℚ
  v_y : ℚ
  a_x : ℚ
  a_y : ℚ
  mass : ℚ
  settings : Settings
  size : ℤ

/-- `Body.__init__(self, x, y, mass, settings, v_x, v_y)`: position and
velocity from the arguments, acceleration components set to `0.0`,
`size` taken from `settings.OBJECT_SIZE`. -/
def Body.init (x y mass : ℚ) (settings : Settings) (v_x v_y : ℚ) : Body :=
  ⟨x, y, v_x, v_y, 0, 0, mass, settings, settings.OBJECT_SIZE⟩

/-- `Body(x, y, mass, settings)` with the default arguments
`v_x = 0.0, v_y = 0.0` left unsupplied. -/
def Body.initDefaultVel (x y mass : ℚ) (settings : Settings) : Body :=
  Body.init x y mass settings 0 0

/-- `Body.update(self)`: velocity is advanced by `a * d_t`, then position
by the freshly updated velocity times `d_t`, then the acceleration is
reset to `0.0`. -/
def Body.update (b : Body) : Body :=
  let v_x := b.v_x + b.a_x * b.settings.d_t
  let v_y := b.v_y + b.a_y * b.settings.d_t
  let x := b.x + v_x * b.settings.d_t
  let y := b.y + v_y * b.settings.d_t
  { b with x := x, y := y, v_x := v_x, v_y := v_y, a_x := 0, a_y := 0 }

/-- One frame of the standard physics loop of the style guide, with the
force application phase setting the acceleration components (as
`apply_gravity` does) before `body.update()` integrates. -/
def applyAccel (ax ay : ℚ) (b : Body) : Body :=
  { b with a_x := ax, a_y := ay }

/-- A frame with a constant applied acceleration: set the acceleration,
then integrate with `Body.update`. -/
def frameStep (ax ay : ℚ) (b : Body) : Body :=
  Body.update (applyAccel ax ay b)

/-- Modelled from the spec: the boundary collision response, whose concrete
pygame implementation is not among the source files (the style guide only
states the pattern: return a boolean indicating a collision, correct the
position to a valid location, update the velocity; the lesson gives the
bounce hint that the velocity is the opposite of what it was).  When the
position crosses a vertical wall, the velocity component perpendicular to
the wall is negated and the position is clamped to the wall. -/
def Body.check_wall_collision (b : Body) (x_min x_max : ℚ) : Body × Bool :=
  if b.x < x_min then ({ b with x := x_min, v_x := -b.v_x }, true)
  else if x_max < b.x then ({ b with x := x_max, v_x := -b.v_x }, true)
  else (b, false)

/-- Claim C1: one call to `Body.update` is a semi-implicit (symplectic)
Euler step: the new velocity is `v + a * d_t`, the new position is the old
position plus the already-updated velocity times `d_t`, and the
acceleration ends at zero. -/
theorem update_semi_implicit_euler (b : Body) :
    (Body.update b).v_x = b.v_x + b.a_x * b.settings.d_t ∧
    (Body.update b).v_y = b.v_y + b.a_y * b.settings.d_t ∧
    (Body.update b).x = b.x + (Body.update b).v_x * b.settings.d_t ∧
    (Body.update b).y = b.y + (Body.update b).v_y * b.settings.d_t ∧
    (Body.update b).a_x = 0 ∧ (Body.update b).a_y = 0 := by
  refine ⟨rfl, rfl, rfl, rfl, rfl, rfl⟩

/-- Claim C3: the acceleration is reset to zero at the end of every
`Body.update` call, so after any positive number of integration steps both
acceleration components are zero: the invariant is preserved by every
step, and no acceleration is carried over across frames. -/
theorem accel_reset_every_update (b : Body) (n : ℕ) :
    (Body.update^[n + 1] b).a_x = 0 ∧ (Body.update^[n + 1] b).a_y = 0 := by
  rw [Function.iterate_succ_apply']
  exact ⟨rfl, rfl⟩

/-- Claim C8: `Body.update` mutates only position, velocity and
acceleration; `mass`, `size` and the `settings` reference are unchanged. -/
theorem update_preserves_mass_size (b : Body) :
    (Body.update b).mass = b.mass ∧ (Body.update b).size = b.size ∧
    (Body.update b).settings = b.settings :=
  ⟨rfl, rfl, rfl⟩

lemma frameStep_settings (ax ay : ℚ) (b : Body) :
    (frameStep ax ay b).settings = b.settings := rfl

lemma frameStep_iterate_settings (ax ay : ℚ) (b : Body) (n : ℕ) :
    ((frameStep ax ay)^[n] b).settings = b.settings := by
  induction n with
  | zero => rfl
  | succ k ih => rw [Function.iterate_succ_apply', frameStep_settings, ih]

lemma frameStep_v (ax ay : ℚ) (b : Body) :
    (frameStep ax ay b).v_x = b.v_x + ax * b.settings.d_t ∧
    (frameStep ax ay b).v_y = b.v_y + ay * b.settings.d_t :=
  ⟨rfl, rfl⟩

/-- Claim C5: with the acceleration held at `(ax, ay)` by the force
application phase of every frame, the velocity after `n` frames is the
initial velocity plus `a * d_t * n`. -/
theorem velocity_linear_in_steps (b : Body) (ax ay : ℚ) (n : ℕ)
    (_hdt : 0 < b.settings.d_t) :
    ((frameStep ax ay)^[n] b).v_x = b.v_x + ax * b.settings.d_t * n ∧
    ((frameStep ax ay)^[n] b).v_y = b.v_y + ay * b.settings.d_t * n := by
  induction n with
  | zero => simp
  | succ k ih =>
    rw [Function.iterate_succ_apply']
    have hs := frameStep_iterate_settings ax ay b k
    obtain ⟨h1, h2⟩ := frameStep_v ax ay ((frameStep ax ay)^[k] b)
    rw [hs] at h1 h2
    constructor
    · rw [h1, ih.1]; push_cast; ring
    · rw [h2, ih.2]; push_cast; ring

/-- Witness for C5 at a concrete body: two frames at constant acceleration
`(3, 0)` with the default timestep `1/60`. -/
theorem velocity_linear_in_steps_witness :
    0 < (Body.init 0 0 2 defaultSettings 1 1).settings.d_t ∧
    ((frameStep 3 0)^[2] (Body.init 0 0 2 defaultSettings 1 1)).v_x
      = (Body.init 0 0 2 defaultSettings 1 1).v_x
        + 3 * (Body.init 0 0 2 defaultSettings 1 1).settings.d_t * (2 : ℕ) :=
  ⟨by norm_num [Body.init, defaultSettings, Settings.post_init],
   (velocity_linear_in_steps (Body.init 0 0 2 defaultSettings 1 1)
    3 0 2 (by norm_num [Body.init, defaultSettings, Settings.post_init])).1⟩

lemma update_iterate_zero_accel (b : Body) (hax : b.a_x = 0) (hay : b.a_y = 0)
    (n : ℕ) :
    Body.update^[n] b =
      { b with x := b.x + b.v_x * b.settings.d_t * n,
               y := b.y + b.v_y * b.settings.d_t * n,
               a_x := 0, a_y := 0 } := by
  induction n with
  | zero =>
    cases b
    simp_all
  | succ k ih =>
    rw [Function.iterate_succ_apply', ih]
    cases b
    simp_all [Body.update]
    constructor <;> ring

/-- Claim C6: with the acceleration zero at the start of a step, the
velocity is unchanged and the position advances by exactly `v * d_t` per
step, so after `n` steps the position is `position0 + v0 * d_t * n`. -/
theorem zero_accel_linear_motion (b : Body) (n : ℕ)
    (hax : b.a_x = 0) (hay : b.a_y = 0) :
    (Body.update^[n] b).v_x = b.v_x ∧ (Body.update^[n] b).v_y = b.v_y ∧
    (Body.update^[n] b).x = b.x + b.v_x * b.settings.d_t * n ∧
    (Body.update^[n] b).y = b.y + b.v_y * b.settings.d_t * n := by
  rw [update_iterate_zero_accel b hax hay n]
  exact ⟨rfl, rfl, rfl, rfl⟩

/-- Witness for C6 at a concrete body: three zero-force steps from
position `(2, 3)` with velocity `(5, 7)`. -/
theorem zero_accel_linear_motion_witness :
    (Body.init 2 3 2 defaultSettings 5 7).a_x = 0 ∧
    (Body.init 2 3 2 defaultSettings 5 7).a_y = 0 ∧
    ((Body.update^[3] (Body.init 2 3 2 defaultSettings 5 7)).v_x
       = (Body.init 2 3 2 defaultSettings 5 7).v_x ∧
     (Body.update^[3] (Body.init 2 3 2 defaultSettings 5 7)).v_y
       = (Body.init 2 3 2 defaultSettings 5 7).v_y ∧
     (Body.update^[3] (Body.init 2 3 2 defaultSettings 5 7)).x
       = (Body.init 2 3 2 defaultSettings 5 7).x
         + (Body.init 2 3 2 defaultSettings 5 7).v_x
           * (Body.init 2 3 2 defaultSettings 5 7).settings.d_t * (3 : ℕ) ∧
     (Body.update^[3] (Body.init 2 3 2 defaultSettings 5 7)).y
       = (Body.init 2 3 2 defaultSettings 5 7).y
         + (Body.init 2 3 2 defaultSettings 5 7).v_y
           * (Body.init 2 3 2 defaultSettings 5 7).settings.d_t * (3 : ℕ)) :=
  ⟨rfl, rfl, zero_accel_linear_motion (Body.init 2 3 2 defaultSettings 5 7)
    3 rfl rfl⟩

/-- Claim C10: a freshly constructed `Body` has acceleration `(0, 0)`, and
velocity `(0, 0)` when none is supplied; updating it before any force is
applied leaves the velocity unchanged and moves the position by the
initial velocity times `d_t`. -/
theorem init_defaults_first_update (x y m : ℚ) (s : Settings) (vx vy : ℚ) :
    (Body.init x y m s vx vy).a_x = 0 ∧
    (Body.init x y m s vx vy).a_y = 0 ∧
    (Body.initDefaultVel x y m s).v_x = 0 ∧
    (Body.initDefaultVel x y m s).v_y = 0 ∧
    (Body.update (Body.init x y m s vx vy)).v_x = vx ∧
    (Body.update (Body.init x y m s vx vy)).v_y = vy ∧
    (Body.update (Body.init x y m s vx vy)).x = x + vx * s.d_t ∧
    (Body.update (Body.init x y m s vx vy)).y = y + vy * s.d_t := by
  simp [Body.init, Body.initDefaultVel, Body.update]

/-- Claim C4: the boundary response negates the velocity component
perpendicular to the crossed wall and clamps the position to the wall,
leaving the parallel component untouched; with the position inside the
walls nothing changes and no collision is reported. -/
theorem wall_bounce_elastic (b : Body) (x_min x_max : ℚ)
    (hw : x_min ≤ x_max) :
    (x_max < b.x →
      (b.check_wall_collision x_min x_max).1.v_x = -b.v_x ∧
      (b.check_wall_collision x_min x_max).1.v_y = b.v_y ∧
      (b.check_wall_collision x_min x_max).1.x = x_max ∧
      (b.check_wall_collision x_min x_max).2 = true) ∧
    (b.x < x_min →
      (b.check_wall_collision x_min x_max).1.v_x = -b.v_x ∧
      (b.check_wall_collision x_min x_max).1.v_y = b.v_y ∧
      (b.check_wall_collision x_min x_max).1.x = x_min ∧
      (b.check_wall_collision x_min x_max).2 = true) ∧
    (x_min ≤ b.x → b.x ≤ x_max →
      b.check_wall_collision x_min x_max = (b, false)) := by
  refine ⟨fun h => ?_, fun h => ?_, fun h1 h2 => ?_⟩
  · rw [Body.check_wall_collision, if_neg (by linarith), if_pos h]
    exact ⟨rfl, rfl, rfl, rfl⟩
  · rw [Body.check_wall_collision, if_pos h]
    exact ⟨rfl, rfl, rfl, rfl⟩
  · rw [Body.check_wall_collision, if_neg (by linarith), if_neg (by linarith)]

/-- Witness for C4: a body at `x = 120` with `v_x = 5` against walls at
`0` and `100` ends with `v_x = -5` and `x = 100`. -/
theorem wall_bounce_elastic_witness :
    (0 : ℚ) ≤ 100 ∧ (100 : ℚ) < (Body.init 120 0 2 defaultSettings 5 0).x ∧
    (((Body.init 120 0 2 defaultSettings 5 0).check_wall_collision 0 100).1.v_x
       = -(Body.init 120 0 2 defaultSettings 5 0).v_x ∧
     ((Body.init 120 0 2 defaultSettings 5 0).check_wall_collision 0 100).1.v_y
       = (Body.init 120 0 2 defaultSettings 5 0).v_y ∧
     ((Body.init 120 0 2 defaultSettings 5 0).check_wall_collision 0 100).1.x
       = 100 ∧
     ((Body.init 120 0 2 defaultSettings 5 0).check_wall_collision 0 100).2
       = true) :=
  ⟨by decide, by decide,
   (wall_bounce_elastic (Body.init 120 0 2 defaultSettings 5 0) 0 100
     (by decide)).1 (by decide)⟩

/-- The gravitational constant used by the rebound transition guide,
`G_SI = 6.674e-11`. -/
noncomputable def G : ℝ := 6.674e-11

lemma G_pos : 0 < G := by norm_num [G]

/-- pygame `Vector2`, over the reals. -/
@[ext]
structure Vec2 where
  x : ℝ
  y : ℝ

/-- Componentwise `Vector2` addition. -/
def Vec2.add (a b : Vec2) : Vec2 := ⟨a.x + b.x, a.y + b.y⟩

/-- Componentwise `Vector2` subtraction. -/
def Vec2.sub (a b : Vec2) : Vec2 := ⟨a.x - b.x, a.y - b.y⟩

/-- `Vector2 * scalar`. -/
def Vec2.smul (v : Vec2) (c : ℝ) : Vec2 := ⟨v.x * c, v.y * c⟩

/-- Componentwise negation of a `Vector2`. -/
def Vec2.neg (v : Vec2) : Vec2 := ⟨-v.x, -v.y⟩

/-- `Vector2.length()`. -/
noncomputable def Vec2.length (v : Vec2) : ℝ := Real.sqrt (v.x ^ 2 + v.y ^ 2)

/-- `Vector2.distance_squared_to(other)`. -/
def Vec2.distance_squared_to (a b : Vec2) : ℝ :=
  (b.x - a.x) ^ 2 + (b.y - a.y) ^ 2

/-- `Vector2.distance_to(other)`. -/
noncomputable def Vec2.distance_to (a b : Vec2) : ℝ :=
  Real.sqrt (a.distance_squared_to b)

/-- `Vector2.normalize()`: pygame raises a `ValueError` on a vector of
length zero, modelled as `none`. -/
noncomputable def Vec2.normalize (v : Vec2) : Option Vec2 :=
  if v.length = 0 then none else some (v.smul v.length⁻¹)

/-- The vector-based body of the rebound transition guide: a `pos` and
`vel` `Vector2` and a `mass`. -/
structure VBody where
  pos : Vec2
  vel : Vec2
  mass : ℝ

/-- `force_vec_due_to(self, other)` of the rebound transition guide:
`r2 = self.pos.distance_squared_to(other.pos)`,
`f_g = (G * self.mass * other.mass) / r2`,
`f = (other.pos - self.pos).normalize() * f_g`.  A zero separation makes
`f_g` a float division by zero (a `ZeroDivisionError`), modelled as
`none`. -/
noncomputable def VBody.force_vec_due_to (self other : VBody) : Option Vec2 :=
  if self.pos.distance_squared_to other.pos = 0 then none
  else
    ((other.pos.sub self.pos).normalize).map
      (fun nv => nv.smul
        (G * self.mass * other.mass / self.pos.distance_squared_to other.pos))

/-- `update(self)` of the rebound transition guide:
`f = self.force_vec_due_to(self.sun)`, `a = f / self.mass`,
`self.vel += a * d_T`, `self.pos += self.vel * d_T`.  The division of the
force vector by a zero mass raises in Python, modelled as `none`. -/
noncomputable def VBody.update (self sun : VBody) (d_T : ℝ) : Option VBody :=
  match self.force_vec_due_to sun with
  | none => none
  | some f =>
    if self.mass = 0 then none
    else
      let a := f.smul self.mass⁻¹
      let vel := self.vel.add (a.smul d_T)
      let pos := self.pos.add (vel.smul d_T)
      some { self with vel := vel, pos := pos }

lemma dist_sq_nonneg (a b : Vec2) : 0 ≤ a.distance_squared_to b := by
  unfold Vec2.distance_squared_to
  positivity

lemma dist_sq_comm (a b : Vec2) :
    a.distance_squared_to b = b.distance_squared_to a := by
  unfold Vec2.distance_squared_to
  ring

lemma dist_sq_eq_zero_iff (a b : Vec2) :
    a.distance_squared_to b = 0 ↔ a = b := by
  unfold Vec2.distance_squared_to
  constructor
  · intro h
    have hx : (b.x - a.x) ^ 2 = 0 := by
      nlinarith [sq_nonneg (b.x - a.x), sq_nonneg (b.y - a.y)]
    have hy : (b.y - a.y) ^ 2 = 0 := by
      nlinarith [sq_nonneg (b.x - a.x), sq_nonneg (b.y - a.y)]
    have hx2 : b.x - a.x = 0 := sq_eq_zero_iff.mp hx
    have hy2 : b.y - a.y = 0 := sq_eq_zero_iff.mp hy
    ext
    · linarith
    · linarith
  · intro h
    rw [h]
    ring

lemma length_sub_eq_dist (a b : Vec2) :
    (Vec2.sub b a).length = a.distance_to b := rfl

lemma length_smul (v : Vec2) (c : ℝ) :
    (v.smul c).length = v.length * |c| := by
  unfold Vec2.smul Vec2.length
  rw [show (v.x * c) ^ 2 + (v.y * c) ^ 2 = (v.x ^ 2 + v.y ^ 2) * c ^ 2 by
    ring]
  rw [Real.sqrt_mul (by positivity), Real.sqrt_sq_eq_abs]

lemma length_sub_comm (a b : Vec2) :
    (Vec2.sub a b).length = (Vec2.sub b a).length := by
  unfold Vec2.sub Vec2.length
  ring_nf

lemma dist_to_pos (a b : Vec2) (h : a.distance_squared_to b ≠ 0) :
    0 < a.distance_to b := by
  unfold Vec2.distance_to
  exact Real.sqrt_pos.mpr (lt_of_le_of_ne (dist_sq_nonneg a b) (Ne.symm h))

lemma force_vec_due_to_eq (a b : VBody)
    (h : a.pos.distance_squared_to b.pos ≠ 0) :
    a.force_vec_due_to b =
      some (((b.pos.sub a.pos).smul ((b.pos.sub a.pos).length)⁻¹).smul
        (G * a.mass * b.mass / a.pos.distance_squared_to b.pos)) := by
  have hL : (b.pos.sub a.pos).length ≠ 0 := by
    rw [length_sub_eq_dist]
    exact (dist_to_pos a.pos b.pos h).ne'
  unfold VBody.force_vec_due_to Vec2.normalize
  rw [if_neg h, if_neg hL]
  rfl

/-- Claim C2: at separation `r > 0`, `force_vec_due_to` returns a force of
magnitude `G * m1 * m2 / r ^ 2` along the unit vector from the attracted
body's position toward the other body's position. -/
theorem force_vec_newton_law (a b : VBody) (hm1 : 0 < a.mass)
    (hm2 : 0 < b.mass) (hr : 0 < a.pos.distance_to b.pos) :
    ∃ f : Vec2,
      a.force_vec_due_to b = some f ∧
      f.length = G * a.mass * b.mass / (a.pos.distance_to b.pos) ^ 2 ∧
      f = ((b.pos.sub a.pos).smul (a.pos.distance_to b.pos)⁻¹).smul
            (G * a.mass * b.mass / (a.pos.distance_to b.pos) ^ 2) := by
  have hr2 : a.pos.distance_squared_to b.pos ≠ 0 := by
    intro h0
    rw [Vec2.distance_to, h0, Real.sqrt_zero] at hr
    exact lt_irrefl 0 hr
  have hsq : (a.pos.distance_to b.pos) ^ 2 = a.pos.distance_squared_to b.pos :=
    Real.sq_sqrt (dist_sq_nonneg a.pos b.pos)
  have hd2 : 0 < a.pos.distance_squared_to b.pos :=
    lt_of_le_of_ne (dist_sq_nonneg a.pos b.pos) (Ne.symm hr2)
  have hmag : 0 < G * a.mass * b.mass / a.pos.distance_squared_to b.pos :=
    div_pos (mul_pos (mul_pos G_pos hm1) hm2) hd2
  refine ⟨((b.pos.sub a.pos).smul ((b.pos.sub a.pos).length)⁻¹).smul
      (G * a.mass * b.mass / a.pos.distance_squared_to b.pos),
    force_vec_due_to_eq a b hr2, ?_, ?_⟩
  · rw [length_smul, length_smul, length_sub_eq_dist, abs_inv,
      abs_of_pos hr, mul_inv_cancel₀ hr.ne', one_mul, abs_of_pos hmag, hsq]
  · rw [length_sub_eq_dist, hsq]

/-- Witness for C2: bodies of mass `2` and `3` at `(0, 0)` and `(3, 4)`,
at separation `5`. -/
theorem force_vec_newton_law_witness :
    0 < (⟨⟨0, 0⟩, ⟨0, 0⟩, 2⟩ : VBody).mass ∧
    0 < (⟨⟨3, 4⟩, ⟨0, 0⟩, 3⟩ : VBody).mass ∧
    0 < (⟨⟨0, 0⟩, ⟨0, 0⟩, 2⟩ : VBody).pos.distance_to
          (⟨⟨3, 4⟩, ⟨0, 0⟩, 3⟩ : VBody).pos ∧
    ∃ f : Vec2,
      VBody.force_vec_due_to ⟨⟨0, 0⟩, ⟨0, 0⟩, 2⟩ ⟨⟨3, 4⟩, ⟨0, 0⟩, 3⟩
        = some f ∧
      f.length = G * (⟨⟨0, 0⟩, ⟨0, 0⟩, 2⟩ : VBody).mass
          * (⟨⟨3, 4⟩, ⟨0, 0⟩, 3⟩ : VBody).mass
          / ((⟨⟨0, 0⟩, ⟨0, 0⟩, 2⟩ : VBody).pos.distance_to
              (⟨⟨3, 4⟩, ⟨0, 0⟩, 3⟩ : VBody).pos) ^ 2 ∧
      f = (((⟨⟨3, 4⟩, ⟨0, 0⟩, 3⟩ : VBody).pos.sub
              (⟨⟨0, 0⟩, ⟨0, 0⟩, 2⟩ : VBody).pos).smul
            ((⟨⟨0, 0⟩, ⟨0, 0⟩, 2⟩ : VBody).pos.distance_to
              (⟨⟨3, 4⟩, ⟨0, 0⟩, 3⟩ : VBody).pos)⁻¹).smul
            (G * (⟨⟨0, 0⟩, ⟨0, 0⟩, 2⟩ : VBody).mass
              * (⟨⟨3, 4⟩, ⟨0, 0⟩, 3⟩ : VBody).mass
              / ((⟨⟨0, 0⟩, ⟨0, 0⟩, 2⟩ : VBody).pos.distance_to
                  (⟨⟨3, 4⟩, ⟨0, 0⟩, 3⟩ : VBody).pos) ^ 2) :=
  ⟨by norm_num, by norm_num,
   dist_to_pos _ _ (by norm_num [Vec2.distance_squared_to]),
   force_vec_newton_law ⟨⟨0, 0⟩, ⟨0, 0⟩, 2⟩ ⟨⟨3, 4⟩, ⟨0, 0⟩, 3⟩
     (by norm_num) (by norm_num)
     (dist_to_pos _ _ (by norm_num [Vec2.distance_squared_to]))⟩

/-- Claim C9: the pairwise gravitational force obeys Newton's third law:
for bodies at distinct positions, the force on `a` due to `b` is the
negation of the force on `b` due to `a`. -/
theorem force_vec_antisymm (a b : VBody) (h : a.pos ≠ b.pos) :
    ∃ f g : Vec2, a.force_vec_due_to b = some f ∧
      b.force_vec_due_to a = some g ∧ f = g.neg := by
  have hab : a.pos.distance_squared_to b.pos ≠ 0 := fun h0 =>
    h ((dist_sq_eq_zero_iff a.pos b.pos).mp h0)
  have hba : b.pos.distance_squared_to a.pos ≠ 0 := by
    rw [dist_sq_comm]
    exact hab
  refine ⟨_, _, force_vec_due_to_eq a b hab, force_vec_due_to_eq b a hba, ?_⟩
  rw [length_sub_comm a.pos b.pos, dist_sq_comm b.pos a.pos]
  ext
  · simp only [Vec2.smul, Vec2.neg, Vec2.sub]
    ring
  · simp only [Vec2.smul, Vec2.neg, Vec2.sub]
    ring

/-- Witness for C9 at bodies at `(0, 0)` and `(3, 4)`. -/
theorem force_vec_antisymm_witness :
    (⟨⟨0, 0⟩, ⟨0, 0⟩, 2⟩ : VBody).pos ≠ (⟨⟨3, 4⟩, ⟨0, 0⟩, 3⟩ : VBody).pos ∧
    ∃ f g : Vec2,
      VBody.force_vec_due_to ⟨⟨0, 0⟩, ⟨0, 0⟩, 2⟩ ⟨⟨3, 4⟩, ⟨0, 0⟩, 3⟩
        = some f ∧
      VBody.force_vec_due_to ⟨⟨3, 4⟩, ⟨0, 0⟩, 3⟩ ⟨⟨0, 0⟩, ⟨0, 0⟩, 2⟩
        = some g ∧
      f = g.neg :=
  ⟨by norm_num [Vec2.mk.injEq],
   force_vec_antisymm ⟨⟨0, 0⟩, ⟨0, 0⟩, 2⟩ ⟨⟨3, 4⟩, ⟨0, 0⟩, 3⟩
     (by norm_num [Vec2.mk.injEq])⟩

/-- Claim C7: the force and integration code has no input validation and
no recoverable error branch: zero separation makes `force_vec_due_to` an
unguarded division by zero (an error), zero mass makes `a = f / mass` an
unguarded division by zero in `update`, and under the preconditions of a
nonzero separation and nonzero mass every division is well-defined and
both operations succeed. -/
theorem unguarded_division_semantics (a b sun : VBody) (d_T : ℝ) :
    (a.pos.distance_squared_to b.pos = 0 → a.force_vec_due_to b = none) ∧
    (a.pos.distance_squared_to sun.pos ≠ 0 →
      ∃ f, a.force_vec_due_to sun = some f) ∧
    (a.mass = 0 → a.pos.distance_squared_to sun.pos ≠ 0 →
      a.update sun d_T = none) ∧
    (a.mass ≠ 0 → a.pos.distance_squared_to sun.pos ≠ 0 →
      ∃ a2, a.update sun d_T = some a2) := by
  refine ⟨fun h0 => ?_, fun h => ⟨_, force_vec_due_to_eq a sun h⟩,
    fun hm h => ?_, fun hm h => ?_⟩
  · unfold VBody.force_vec_due_to
    rw [if_pos h0]
  · unfold VBody.update
    rw [force_vec_due_to_eq a sun h]
    simp [hm]
  · unfold VBody.update
    rw [force_vec_due_to_eq a sun h]
    simp [hm]

/-- Witness for C7: coincident bodies make the force an error, a zero-mass
body makes `update` an error, and a body of mass `2` with the sun at
separation `5` updates successfully. -/
theorem unguarded_division_semantics_witness :
    VBody.force_vec_due_to ⟨⟨0, 0⟩, ⟨0, 0⟩, 2⟩ ⟨⟨0, 0⟩, ⟨0, 0⟩, 3⟩
      = none ∧
    VBody.update ⟨⟨0, 0⟩, ⟨0, 0⟩, 0⟩ ⟨⟨3, 4⟩, ⟨0, 0⟩, 5⟩ 1 = none ∧
    ∃ a2, VBody.update ⟨⟨0, 0⟩, ⟨0, 0⟩, 2⟩ ⟨⟨3, 4⟩, ⟨0, 0⟩, 5⟩ 1
      = some a2 := by
  refine ⟨?_, ?_, ?_⟩
  · exact (unguarded_division_semantics ⟨⟨0, 0⟩, ⟨0, 0⟩, 2⟩
      ⟨⟨0, 0⟩, ⟨0, 0⟩, 3⟩ ⟨⟨0, 0⟩, ⟨0, 0⟩, 3⟩ 1).1
      (by norm_num [Vec2.distance_squared_to])
  · exact (unguarded_division_semantics ⟨⟨0, 0⟩, ⟨0, 0⟩, 0⟩
      ⟨⟨3, 4⟩, ⟨0, 0⟩, 5⟩ ⟨⟨3, 4⟩, ⟨0, 0⟩, 5⟩ 1).2.2.1
      (by norm_num) (by norm_num [Vec2.distance_squared_to])
  · exact (unguarded_division_semantics ⟨⟨0, 0⟩, ⟨0, 0⟩, 2⟩
      ⟨⟨3, 4⟩, ⟨0, 0⟩, 5⟩ ⟨⟨3, 4⟩, ⟨0, 0⟩, 5⟩ 1).2.2.2
      (by norm_num) (by norm_num [Vec2.distance_squared_to])

end OrbitLab
